import Mathlib

/-!
Verification of the FinancialTools repository (a Python library of financial
formulas plus interactive CLI calculators) against its natural-language
specification.  Each Python function used by the claims is shallowly embedded
as a Lean definition over exact rational arithmetic (`ℚ`); Python's real-valued
power on possibly-irrational results (the n-th root in the geometric mean) is
embedded over `ℝ` with `Real.rpow`.  The calculators' month-by-month loops are
embedded as folds over `List.range`, carrying the same mutable state the Python
loops carry.
-/

namespace FinanceFormulas

/-- Names of the methods defined by the class `FinanceFormulas` in
`src/formulas/financeFormulas.py`, in source order.  Used to model Python
attribute lookup on a `FinanceFormulas` instance. -/
def methodNames : List String :=
  ["annual_percentage_yield", "cost_of_goods_sold", "future_value_of_annuity",
   "future_value_of_annuity_with_continuous_compounding",
   "number_of_periods_for_future_value_of_annuity", "annuity_payment_present_value",
   "annuity_payment_future_value", "annuity_payment_factor", "present_value_of_annuity",
   "present_value_of_annuity_with_continuous_compounding",
   "number_of_periods_for_present_value_of_annuity", "present_value_annuity_factor",
   "present_value_of_annuity_due", "future_value_of_annuity_due",
   "annuity_due_payment_using_present_value", "annuity_due_payment_using_future_value",
   "asset_to_sales_ratio", "asset_turnover_ratio", "average_collection_period",
   "balloon_loan_payment", "bid_ask_spread", "bond_equivalent_yield",
   "book_value_per_share", "capital_asset_pricing_model", "capital_gains_yield",
   "compound_interest", "continuous_compounding", "contribution_margin",
   "current_ratio", "current_yield", "days_in_inventory", "debt_coverage_ratio",
   "debt_ratio", "debt_to_equity_ratio", "debt_to_income_ratio",
   "diluted_earnings_per_share", "discounted_payback_period", "dividend_payout_ratio",
   "dividend_yield", "dividends_per_share", "doubling_time",
   "doubling_time_with_continuous_compounding", "doubling_time_for_simple_interest",
   "earnings_per_share", "equity_multiplier", "equivalent_annual_annuity",
   "estimated_earnings", "free_cash_flow_to_equity", "free_cash_flow_to_firm",
   "future_value", "future_value_with_continuous_compounding", "future_value_factor",
   "geometric_mean_return", "gross_profit_margin", "future_value_of_growing_annuity",
   "growing_annuity_payment_from_present_value", "growing_annuity_payment_from_future_value",
   "present_value_of_a_growing_annuity", "present_value_of_growing_perpetuity",
   "holding_period_return", "interest_coverage_ratio", "inventory_turnover_ratio",
   "interest_rate_parity", "balloon_balance_of_a_loan", "loan_payment",
   "remaining_balance_on_loan", "loan_to_deposit_ratio", "loan_to_value_ratio",
   "net_asset_value", "net_interest_income", "net_interest_margin",
   "net_interest_spread", "net_present_value", "net_profit_margin",
   "net_working_capital", "number_of_periods_for_present_value_to_reach_future_value",
   "operating_margin", "payback_period", "present_value_of_perpetuity",
   "perpetuity_payment", "perpetuity_yield", "preferred_stock_value",
   "present_value", "present_value_factor", "present_value_with_continuous_compounding",
   "present_value_with_continuous_compounding_factor", "price_to_book_value_ratio",
   "price_to_cash_flows_ratio", "price_to_dividend_ratio", "price_to_earnings_ratio",
   "price_to_sales_ratio", "profitability_index", "quick_ratio", "rate_of_inflation",
   "real_rate_of_return", "receivables_turnover_ratio", "retention_ratio",
   "return_on_assets", "return_on_equity", "return_on_investment", "risk_premium",
   "rule_of_72", "simple_interest", "present_value_of_stock_with_constant_growth",
   "present_value_of_stock_with_zero_growth", "tax_equivalent_yield",
   "total_stock_return", "weighted_average", "yield_to_maturity",
   "zero_coupon_bond_value", "zero_coupon_bond_effective_yield"]

/-- Python attribute lookup `fm.<name>` on a `FinanceFormulas` instance:
returns the resolved name when the class defines a method called `name`,
and raises an AttributeError otherwise. -/
def getattr (name : String) : Except String String :=
  if methodNames.contains name then Except.ok name
  else Except.error ("AttributeError: FinanceFormulas object has no attribute " ++ name)

/-- Embedding of `FinanceFormulas.future_value`:
`initialCashFlow * ((1 + rateOfReturn) ** numberOfPeriods)`. -/
def future_value (initialCashFlow rateOfReturn : ℚ) (numberOfPeriods : ℕ) : ℚ :=
  initialCashFlow * ((1 + rateOfReturn) ^ numberOfPeriods)

/-- Embedding of `FinanceFormulas.present_value`:
`cashFlowAtFirstPeriod / ((1 + rateOfReturn) ** numberOfPeriods)`. -/
def present_value (cashFlowAtFirstPeriod rateOfReturn : ℚ) (numberOfPeriods : ℕ) : ℚ :=
  cashFlowAtFirstPeriod / ((1 + rateOfReturn) ^ numberOfPeriods)

/-- Embedding of `FinanceFormulas.future_value_of_annuity`:
`periodicPayment * ((((1 + ratePerPeriod) ** numberOfPeriods) - 1) / ratePerPeriod)`. -/
def future_value_of_annuity (periodicPayment ratePerPeriod : ℚ) (numberOfPeriods : ℕ) : ℚ :=
  periodicPayment * ((((1 + ratePerPeriod) ^ numberOfPeriods) - 1) / ratePerPeriod)

/-- Embedding of `FinanceFormulas.present_value_of_annuity`:
`periodicPayment * ((1 - ((1 + ratePerPeriod) ** -numberOfPeriods)) / ratePerPeriod)`.
The negated exponent is an integer power (`zpow`). -/
def present_value_of_annuity (periodicPayment ratePerPeriod : ℚ) (numberOfPeriods : ℕ) : ℚ :=
  periodicPayment * ((1 - ((1 + ratePerPeriod) ^ (-(numberOfPeriods : ℤ)))) / ratePerPeriod)

/-- Embedding of `FinanceFormulas.annuity_payment_present_value`:
`(presentValue * ratePerPeriod) / (1 - (1 + ratePerPeriod) ** -numberOfPeriods)`. -/
def annuity_payment_present_value (presentValue ratePerPeriod : ℚ) (numberOfPeriods : ℕ) : ℚ :=
  (presentValue * ratePerPeriod) / (1 - (1 + ratePerPeriod) ^ (-(numberOfPeriods : ℤ)))

/-- Embedding of `FinanceFormulas.annuity_payment_future_value`:
`(futureValue * ratePerPeriod) / (((1 + ratePerPeriod) ** numberOfPeriods) - 1)`. -/
def annuity_payment_future_value (futureValue ratePerPeriod : ℚ) (numberOfPeriods : ℕ) : ℚ :=
  (futureValue * ratePerPeriod) / (((1 + ratePerPeriod) ^ numberOfPeriods) - 1)

/-- Embedding of `FinanceFormulas.compound_interest`:
`principal * (((1 + ratePerPeriod) ** numberOfPeriods) - 1)`. -/
def compound_interest (principal ratePerPeriod : ℚ) (numberOfPeriods : ℕ) : ℚ :=
  principal * (((1 + ratePerPeriod) ^ numberOfPeriods) - 1)

/-- Embedding of `FinanceFormulas.geometric_mean_return`: the loop
`root = 1; for rateOfReturn in ratesOfReturn: root *= (1 + rateOfReturn)`, then
`root ** (1 / len) - 1` when the list is nonempty and `0` otherwise.  Python's
real-valued `**` is embedded as `Real.rpow`. -/
noncomputable def geometric_mean_return (ratesOfReturn : List ℝ) : ℝ :=
  let root := ratesOfReturn.foldl (fun acc rateOfReturn => acc * (1 + rateOfReturn)) 1
  if 0 < ratesOfReturn.length then root ^ ((1 : ℝ) / (ratesOfReturn.length : ℝ)) - 1 else 0

/-- Embedding of `FinanceFormulas.holding_period_return`: the loop
`base = 1; for periodReturn in percentagePeriodReturns: base *= (1 + periodReturn)`,
then `base - 1` when the list is nonempty and `0` otherwise. -/
def holding_period_return (percentagePeriodReturns : List ℚ) : ℚ :=
  let base := percentagePeriodReturns.foldl (fun acc periodReturn => acc * (1 + periodReturn)) 1
  if 0 < percentagePeriodReturns.length then base - 1 else 0

/-- Embedding of `FinanceFormulas.net_present_value`: the loop
`for count, cashFlowAtPeriod in enumerate(cashFlows): sum += cashFlowAtPeriod / ((1 + discountRate) ** (count + 1))`,
returning `-initialInvestment + sum`. -/
def net_present_value (initialInvestment : ℚ) (cashFlows : List ℚ) (discountRate : ℚ) : ℚ :=
  -initialInvestment +
    (cashFlows.enum.map (fun p => p.2 / ((1 + discountRate) ^ (p.1 + 1)))).sum

end FinanceFormulas

namespace InvestmentSavingsAccount

/-- Embedding of `InvestmentSavingsAccount.calculate_flat_rate_tax` from
`src/investmentsavingsaccount.py`: `capitalBase = (sum(quaterValues) + deposits) / 4`;
`imputedIncome = .0125 if (governmentBorrowingRate + .01) < .0125 else governmentBorrowingRate + .01`;
result `(capitalBase * imputedIncome) * .3`. -/
def calculate_flat_rate_tax (quaterValues : List ℚ) (deposits governmentBorrowingRate : ℚ) : ℚ :=
  let capitalBase := (quaterValues.sum + deposits) / 4
  let imputedIncome :=
    if governmentBorrowingRate + 1/100 < 125/10000 then 125/10000
    else governmentBorrowingRate + 1/100
  (capitalBase * imputedIncome) * (3/10)

end InvestmentSavingsAccount

/-- Python int() applied to a rational number: truncation toward zero. -/
def pythonInt (x : ℚ) : ℤ :=
  if 0 ≤ x then ⌊x⌋ else ⌈x⌉

namespace MortgageCalculator

/-- Numeric content of `format_number` in `src/mortgageCalculator.py`:
`math.ceil(number)` (the surrounding string formatting only inserts separators). -/
def format_number (number : ℚ) : ℤ :=
  ⌈number⌉

/-- One printed row of the amortization table. -/
structure Row where
  month : ℕ
  amortization : ℚ
  interest : ℚ
  totalPayment : ℚ
  loanLeft : ℚ
deriving DecidableEq

/-- State carried by the amortization loop: the remaining balance, the accumulated
interest, and the rows printed so far. -/
structure State where
  loanLeft : ℚ
  interestTotal : ℚ
  rows : List Row
deriving DecidableEq

/-- One iteration of the `__main__` amortization loop of `src/mortgageCalculator.py`:
`interest = loanLeft * (interestRate / 12)`, `interestTotal += interest`,
`loanLeft -= amortizationPayment`, `if loanLeft <= 0: loanLeft = 0`, then one row
is printed. -/
def step (interestRate amortizationPayment : ℚ) (s : State) (i : ℕ) : State :=
  let interest := s.loanLeft * (interestRate / 12)
  let interestTotal := s.interestTotal + interest
  let loanLeft0 := s.loanLeft - amortizationPayment
  let loanLeft := if loanLeft0 ≤ 0 then 0 else loanLeft0
  let row : Row :=
    { month := i, amortization := amortizationPayment, interest := interest,
      totalPayment := amortizationPayment + interest, loanLeft := loanLeft }
  { loanLeft := loanLeft, interestTotal := interestTotal, rows := s.rows ++ [row] }

/-- `loanAmount = propertyCost * (1 - downPayment)`. -/
def loanAmount (propertyCost downPayment : ℚ) : ℚ :=
  propertyCost * (1 - downPayment)

/-- `amortizationPayment = loanAmount / amortizationNumberOfPayments` with
`amortizationNumberOfPayments = mortgageType * 12`. -/
def amortizationPayment (propertyCost downPayment mortgageType : ℚ) : ℚ :=
  loanAmount propertyCost downPayment / (mortgageType * 12)

/-- The `__main__` amortization loop of `src/mortgageCalculator.py`:
`for i in range(1, int(amortizationNumberOfPayments) + 1)` starting from
`loanLeft = loanAmount` and `interestTotal = 0`. -/
def run (propertyCost downPayment mortgageType interestRate : ℚ) : State :=
  (List.range (pythonInt (mortgageType * 12)).toNat).foldl
    (fun s i => step interestRate (amortizationPayment propertyCost downPayment mortgageType) s (i + 1))
    { loanLeft := loanAmount propertyCost downPayment, interestTotal := 0, rows := [] }

end MortgageCalculator

namespace CompoundInterestCalculator

/-- Numeric content of `format_number` in `src/compoundInterestCalculator.py`:
`math.ceil(int(number))` — Python `int()` truncates toward zero, and the ceiling
of an integer is that integer. -/
def format_number (number : ℚ) : ℤ :=
  ⌈((pythonInt number : ℤ) : ℚ)⌉

end CompoundInterestCalculator

namespace IskContinuousCompounding

/-- Numeric content of `format_number` in `src/iskContinuousCompoundingWithMonthlySave.py`:
`math.ceil(int(number))`, identical to the compound-interest calculator's version. -/
def format_number (number : ℚ) : ℤ :=
  ⌈((pythonInt number : ℤ) : ℚ)⌉

end IskContinuousCompounding

/-- State of the mortgage amortization loop after its first k iterations, starting from
a balance of L0 with no interest accumulated and no rows printed. -/
def mortgageAfter (rate pay L0 : ℚ) (k : ℕ) : MortgageCalculator.State :=
  (List.range k).foldl (fun s i => MortgageCalculator.step rate pay s (i + 1))
    { loanLeft := L0, interestTotal := 0, rows := [] }

namespace CompoundInterestCalculator

/-- One printed row of the compound-interest table, holding the raw rational values the
source passes to format_number. -/
structure Row where
  year : ℕ
  gained : ℚ
  salaryPerMonth : ℚ
  taxAmount : ℚ
  totSaved : ℚ
  totGained : ℚ
  totCapital : ℚ

/-- State carried by the `for month in range(yearsToSave * 12)` loop of
`src/compoundInterestCalculator.py`. -/
structure State where
  totalCapital : ℚ
  totalSaved : ℚ
  totalGained : ℚ
  yearlyGained : ℚ
  quaterValues : List ℚ
  yearCounter : ℕ
  rows : List Row

/-- One iteration of the month loop: add the deposit to the capital and savings totals,
apply one period of compound interest, sample the capital into quaterValues at months
0, 3, 6, 9 of each year, and at month 11 of each year compute the flat-rate tax
(deposits = monthlyDeposit * 12, government borrowing rate 0.0002), subtract it from the
capital when flatRateTax is set, print one row, and reset the yearly accumulator. -/
def monthStep (monthlyDeposit avgRateOfReturnPerMonth : ℚ) (flatRateTax : Bool)
    (s : State) (month : ℕ) : State :=
  let totalCapital := s.totalCapital + monthlyDeposit
  let totalSaved := s.totalSaved + monthlyDeposit
  let monthCompound := FinanceFormulas.compound_interest totalCapital avgRateOfReturnPerMonth 1
  let yearlyGained := s.yearlyGained + monthCompound
  let totalGained := s.totalGained + monthCompound
  let totalCapital2 := totalCapital + monthCompound
  let quaterValues :=
    if month % 12 ∈ ([0, 3, 6, 9] : List ℕ) then s.quaterValues ++ [totalCapital2]
    else s.quaterValues
  if month % 12 = 11 then
    let tax := InvestmentSavingsAccount.calculate_flat_rate_tax quaterValues
      (monthlyDeposit * 12) (2/10000)
    let totalCapital3 := totalCapital2 - (if flatRateTax then tax else 0)
    let row : Row :=
      { year := s.yearCounter, gained := yearlyGained, salaryPerMonth := yearlyGained / 12,
        taxAmount := tax, totSaved := totalSaved, totGained := totalGained,
        totCapital := totalCapital3 }
    { totalCapital := totalCapital3, totalSaved := totalSaved, totalGained := totalGained,
      yearlyGained := 0, quaterValues := [], yearCounter := s.yearCounter + 1,
      rows := s.rows ++ [row] }
  else
    { totalCapital := totalCapital2, totalSaved := totalSaved, totalGained := totalGained,
      yearlyGained := yearlyGained, quaterValues := quaterValues,
      yearCounter := s.yearCounter, rows := s.rows }

/-- The simulation loop of `src/compoundInterestCalculator.py`, parametric in the monthly
rate of return the source would obtain from the (missing) method
`average_rate_of_return_per_year`. -/
def simulate (startCapital monthlyDeposit avgRateOfReturnPerMonth : ℚ) (yearsToSave : ℕ)
    (flatRateTax : Bool) : State :=
  (List.range (yearsToSave * 12)).foldl
    (monthStep monthlyDeposit avgRateOfReturnPerMonth flatRateTax)
    { totalCapital := startCapital, totalSaved := startCapital, totalGained := 0,
      yearlyGained := 0, quaterValues := [], yearCounter := 1, rows := [] }

/-- The `__main__` body of `src/compoundInterestCalculator.py` after input parsing: line 28
resolves `fm.average_rate_of_return_per_year` before any table output; `call` interprets a
successfully resolved method (the class defines none with this name, so resolution fails
and no row is produced). -/
def main (call : String → ℚ → ℚ → ℚ) (startCapital monthlyDeposit rateOfReturn : ℚ)
    (yearsToSave : ℕ) (flatRateTax : Bool) : Except String (List Row) :=
  match FinanceFormulas.getattr "average_rate_of_return_per_year" with
  | Except.error e => Except.error e
  | Except.ok m =>
      Except.ok ((simulate startCapital monthlyDeposit (call m (rateOfReturn + 1) 12)
        yearsToSave flatRateTax).rows)

end CompoundInterestCalculator

namespace AverageRateOfReturnCalculator

/-- The `__main__` body of `src/averageRateOfReturnCalculator.py` after input parsing: it
resolves `fm.average_rate_of_return_per_year` and would print the resulting rate; `call`
interprets a successfully resolved method. -/
def main (call : String → ℚ → ℚ → ℚ) (totalRateOfReturn years : ℚ) : Except String ℚ :=
  match FinanceFormulas.getattr "average_rate_of_return_per_year" with
  | Except.error e => Except.error e
  | Except.ok m => Except.ok (call m totalRateOfReturn years)

end AverageRateOfReturnCalculator

/-- C2: calculate_flat_rate_tax equals ((sum qs + d) / 4) * max (g + 0.01) 0.0125 * 0.30
for all inputs, and on ([100,100,100,100], 0, 0.0002) it returns exactly 0.375
(the statutory floor 0.0125 applies since 0.0002 + 0.01 < 0.0125). -/
theorem flat_rate_tax_formula :
    (∀ (qs : List ℚ) (d g : ℚ),
        InvestmentSavingsAccount.calculate_flat_rate_tax qs d g
          = ((qs.sum + d) / 4) * max (g + 1/100) (125/10000) * (3/10)) ∧
    InvestmentSavingsAccount.calculate_flat_rate_tax [100, 100, 100, 100] 0 (2/10000)
      = 375/1000 := by
  constructor
  · intro qs d g
    show ((qs.sum + d) / 4) *
        (if g + 1/100 < 125/10000 then 125/10000 else g + 1/100) * (3/10)
      = ((qs.sum + d) / 4) * max (g + 1/100) (125/10000) * (3/10)
    rcases lt_or_le (g + 1/100) (125/10000 : ℚ) with h | h
    · rw [if_pos h, max_eq_right h.le]
    · rw [if_neg (not_lt.mpr h), max_eq_left h]
  · show ((([(100 : ℚ), 100, 100, 100].sum + 0) / 4) *
        (if (2/10000 : ℚ) + 1/100 < 125/10000 then 125/10000 else 2/10000 + 1/100)) * (3/10)
      = 375/1000
    norm_num

/-- C9: for quarterly values that are all non-negative, non-negative deposits and a
non-negative government borrowing rate, calculate_flat_rate_tax returns a
non-negative number (and the embedded function is total, so no error is raised). -/
theorem flat_rate_tax_nonneg (qs : List ℚ) (d g : ℚ)
    (hqs : ∀ q ∈ qs, 0 ≤ q) (hd : 0 ≤ d) (hg : 0 ≤ g) :
    0 ≤ InvestmentSavingsAccount.calculate_flat_rate_tax qs d g := by
  have hsum : 0 ≤ qs.sum := List.sum_nonneg hqs
  show 0 ≤ ((qs.sum + d) / 4) *
      (if g + 1/100 < 125/10000 then 125/10000 else g + 1/100) * (3/10)
  have hbase : 0 ≤ (qs.sum + d) / 4 := by positivity
  have himp : 0 ≤ (if g + 1/100 < 125/10000 then (125/10000 : ℚ) else g + 1/100) := by
    split_ifs with h
    · norm_num
    · positivity
  have h30 : (0 : ℚ) ≤ 3/10 := by norm_num
  exact mul_nonneg (mul_nonneg hbase himp) h30

/-- Witness for C9 at the concrete input ([100,100,100,100], 0, 0.0002). -/
theorem flat_rate_tax_nonneg_witness :
    (0 : ℚ) ≤ 0 ∧ (0 : ℚ) ≤ 2/10000 ∧
    0 ≤ InvestmentSavingsAccount.calculate_flat_rate_tax [100, 100, 100, 100] 0 (2/10000) :=
  ⟨le_refl 0, by norm_num,
    flat_rate_tax_nonneg [100, 100, 100, 100] 0 (2/10000) (by decide) (le_refl 0) (by norm_num)⟩

/-- C4: present_value inverts future_value when (1+r)^n is nonzero, and the
annuity-payment functions invert the corresponding annuity-value functions when
r is nonzero and (1+r)^n is distinct from 1; exact in rational arithmetic. -/
theorem value_roundtrips (x p r : ℚ) (n : ℕ) :
    ((1 + r) ^ n ≠ 0 →
      FinanceFormulas.present_value (FinanceFormulas.future_value x r n) r n = x) ∧
    (r ≠ 0 → (1 + r) ^ n ≠ 1 →
      FinanceFormulas.annuity_payment_present_value
          (FinanceFormulas.present_value_of_annuity p r n) r n = p ∧
      FinanceFormulas.annuity_payment_future_value
          (FinanceFormulas.future_value_of_annuity p r n) r n = p) := by
  constructor
  · intro h
    show x * ((1 + r) ^ n) / ((1 + r) ^ n) = x
    exact mul_div_cancel_right₀ x h
  · intro hr hn
    have hu : (1 + r) ^ (-(n : ℤ)) ≠ 1 := by
      intro h
      apply hn
      rwa [zpow_neg, zpow_natCast, inv_eq_one] at h
    have h1 : 1 - (1 + r) ^ (-(n : ℤ)) ≠ 0 := sub_ne_zero.mpr (Ne.symm hu)
    have h2 : (1 + r) ^ n - 1 ≠ 0 := sub_ne_zero.mpr hn
    constructor
    · show p * ((1 - (1 + r) ^ (-(n : ℤ))) / r) * r / (1 - (1 + r) ^ (-(n : ℤ))) = p
      rw [mul_assoc, div_mul_cancel₀ _ hr, mul_div_cancel_right₀ _ h1]
    · show p * (((1 + r) ^ n - 1) / r) * r / ((1 + r) ^ n - 1) = p
      rw [mul_assoc, div_mul_cancel₀ _ hr, mul_div_cancel_right₀ _ h2]

/-- Witness for C4 at x = 3, p = 5, r = 1/2, n = 2. -/
theorem value_roundtrips_witness :
    ((1 + (1 : ℚ)/2) ^ 2 ≠ 0 ∧
      FinanceFormulas.present_value (FinanceFormulas.future_value 3 (1/2) 2) (1/2) 2 = 3) ∧
    ((1 : ℚ)/2 ≠ 0 ∧ (1 + (1 : ℚ)/2) ^ 2 ≠ 1 ∧
      FinanceFormulas.annuity_payment_present_value
          (FinanceFormulas.present_value_of_annuity 5 (1/2) 2) (1/2) 2 = 5 ∧
      FinanceFormulas.annuity_payment_future_value
          (FinanceFormulas.future_value_of_annuity 5 (1/2) 2) (1/2) 2 = 5) := by
  refine ⟨⟨by norm_num, (value_roundtrips 3 5 (1/2) 2).1 (by norm_num)⟩,
    by norm_num, by norm_num, ?_, ?_⟩
  · exact ((value_roundtrips 3 5 (1/2) 2).2 (by norm_num) (by norm_num)).1
  · exact ((value_roundtrips 3 5 (1/2) 2).2 (by norm_num) (by norm_num)).2

/-- A left fold multiplying the accumulator by (1 + r) for each element equals the
accumulator times the product of the mapped list. -/
theorem foldl_one_add_eq_prod {M : Type} [CommSemiring M] :
    ∀ (l : List M) (a : M),
      l.foldl (fun acc r => acc * (1 + r)) a = a * (l.map (fun r => 1 + r)).prod := by
  intro l
  induction l with
  | nil => intro a; simp
  | cons c l ih =>
    intro a
    simp only [List.foldl_cons, List.map_cons, List.prod_cons, ih, mul_assoc]

/-- Summing a mapped enumeration starting at k equals the indexed finite sum. -/
theorem enumFrom_map_sum (g : ℕ → ℚ → ℚ) :
    ∀ (cs : List ℚ) (k : ℕ),
      ((List.enumFrom k cs).map (fun p => g p.1 p.2)).sum
        = ∑ i ∈ Finset.range cs.length, g (k + i) (cs.getD i 0) := by
  intro cs
  induction cs with
  | nil => intro k; simp
  | cons c cs ih =>
    intro k
    rw [List.enumFrom_cons]
    simp only [List.map_cons, List.sum_cons, List.length_cons]
    rw [Finset.sum_range_succ', ih (k + 1)]
    simp only [List.getD_cons_succ, List.getD_cons_zero, Nat.add_zero]
    rw [add_comm]
    congr 1
    apply Finset.sum_congr rfl
    intro i _
    congr 1
    omega

/-- C5: on a nonempty list, geometric_mean_return is the n-th root of the product of
the (1 + r) factors minus 1, and holding_period_return is that product minus 1;
on the empty list both return exactly 0. -/
theorem mean_return_spec :
    (∀ rs : List ℝ, rs ≠ [] →
        FinanceFormulas.geometric_mean_return rs
          = ((rs.map (fun r => 1 + r)).prod) ^ ((1 : ℝ) / (rs.length : ℝ)) - 1) ∧
    (∀ rs : List ℚ, rs ≠ [] →
        FinanceFormulas.holding_period_return rs = (rs.map (fun r => 1 + r)).prod - 1) ∧
    FinanceFormulas.geometric_mean_return [] = 0 ∧
    FinanceFormulas.holding_period_return [] = 0 := by
  refine ⟨?_, ?_, by simp [FinanceFormulas.geometric_mean_return],
    by simp [FinanceFormulas.holding_period_return]⟩
  · intro rs h
    have hlen : 0 < rs.length := List.length_pos.mpr h
    show (if 0 < rs.length then
        (rs.foldl (fun acc rateOfReturn => acc * (1 + rateOfReturn)) 1)
          ^ ((1 : ℝ) / (rs.length : ℝ)) - 1
      else 0) = _
    rw [if_pos hlen, foldl_one_add_eq_prod rs 1, one_mul]
  · intro rs h
    have hlen : 0 < rs.length := List.length_pos.mpr h
    show (if 0 < rs.length then
        rs.foldl (fun acc periodReturn => acc * (1 + periodReturn)) 1 - 1 else 0) = _
    rw [if_pos hlen, foldl_one_add_eq_prod rs 1, one_mul]

/-- Witness for C5 at the one-element list [1]. -/
theorem mean_return_spec_witness :
    ([(1 : ℝ)] ≠ [] ∧
      FinanceFormulas.geometric_mean_return [(1 : ℝ)]
        = (([(1 : ℝ)].map (fun r => 1 + r)).prod)
            ^ ((1 : ℝ) / ((List.length [(1 : ℝ)] : ℕ) : ℝ)) - 1) ∧
    ([(1 : ℚ)] ≠ [] ∧
      FinanceFormulas.holding_period_return [(1 : ℚ)]
        = ([(1 : ℚ)].map (fun r => 1 + r)).prod - 1) :=
  ⟨⟨by simp, mean_return_spec.1 [1] (by simp)⟩,
   ⟨by simp, mean_return_spec.2.1 [1] (by simp)⟩⟩

/-- C6: net_present_value is -initialInvestment plus the sum of cash flows discounted
with 1-indexed exponents, and the reference input (400, [50,60,70,100,500], 0.12)
rounds to 89.56 at two decimal places. -/
theorem npv_spec :
    (∀ (initialInvestment : ℚ) (cashFlows : List ℚ) (discountRate : ℚ),
        FinanceFormulas.net_present_value initialInvestment cashFlows discountRate
          = -initialInvestment + ∑ i ∈ Finset.range cashFlows.length,
              cashFlows.getD i 0 / (1 + discountRate) ^ (i + 1)) ∧
    round (FinanceFormulas.net_present_value 400 [50, 60, 70, 100, 500] (12/100) * 100)
      = (8956 : ℤ) := by
  constructor
  · intro I cs r
    show -I + ((List.enumFrom 0 cs).map (fun p => p.2 / ((1 + r) ^ (p.1 + 1)))).sum = _
    rw [enumFrom_map_sum (fun i c => c / ((1 + r) ^ (i + 1))) cs 0]
    simp
  · show round ((-(400 : ℚ) +
      ((List.enumFrom 0 [(50 : ℚ), 60, 70, 100, 500]).map
        (fun p => p.2 / ((1 + 12/100) ^ (p.1 + 1)))).sum) * 100) = (8956 : ℤ)
    norm_num [List.enumFrom, round_eq]


/-- The remaining balance produced by one mortgage step is the clamped subtraction. -/
theorem step_loanLeft (rate pay : ℚ) (s : MortgageCalculator.State) (i : ℕ) :
    (MortgageCalculator.step rate pay s i).loanLeft
      = (if s.loanLeft - pay ≤ 0 then 0 else s.loanLeft - pay) := rfl

/-- One mortgage step appends exactly one row, built from the state it ran on. -/
theorem step_rows (rate pay : ℚ) (s : MortgageCalculator.State) (i : ℕ) :
    (MortgageCalculator.step rate pay s i).rows
      = s.rows ++
        [{ month := i, amortization := pay, interest := s.loanLeft * (rate / 12),
           totalPayment := pay + s.loanLeft * (rate / 12),
           loanLeft := if s.loanLeft - pay ≤ 0 then 0 else s.loanLeft - pay }] := rfl

/-- Rows produced by folding the mortgage step keep a non-negative displayed balance
and always show the fixed scheduled payment, provided the rows accumulated so far do. -/
theorem mortgage_fold_rows_sound (interestRate pay : ℚ) :
    ∀ (l : List ℕ) (s : MortgageCalculator.State),
      (∀ row ∈ s.rows, 0 ≤ MortgageCalculator.Row.loanLeft row ∧
          MortgageCalculator.Row.amortization row = pay) →
      ∀ row ∈ (l.foldl (fun s i => MortgageCalculator.step interestRate pay s (i + 1)) s).rows,
        0 ≤ MortgageCalculator.Row.loanLeft row ∧
        MortgageCalculator.Row.amortization row = pay := by
  intro l
  induction l with
  | nil => intro s h; exact h
  | cons j l ih =>
    intro s h
    rw [List.foldl_cons]
    apply ih
    intro row hrow
    rw [step_rows, List.mem_append, List.mem_singleton] at hrow
    rcases hrow with h1 | h2
    · exact h row h1
    · subst h2
      refine ⟨?_, rfl⟩
      show 0 ≤ (if s.loanLeft - pay ≤ 0 then (0 : ℚ) else s.loanLeft - pay)
      split_ifs with hc
      · exact le_refl 0
      · exact le_of_lt (lt_of_not_le hc)

/-- C7: in the mortgage amortization loop, for every input, every printed row shows a
remaining balance clamped to be at least 0 and the unchanged fixed scheduled payment. -/
theorem mortgage_clamp_invariant (propertyCost downPayment mortgageType interestRate : ℚ) :
    ∀ row ∈ (MortgageCalculator.run propertyCost downPayment mortgageType interestRate).rows,
      0 ≤ MortgageCalculator.Row.loanLeft row ∧
      MortgageCalculator.Row.amortization row
        = MortgageCalculator.amortizationPayment propertyCost downPayment mortgageType := by
  apply mortgage_fold_rows_sound
  intro row hrow
  simp at hrow

/-- Unfolding one iteration of the amortization fold. -/
theorem mortgageAfter_succ (rate pay L0 : ℚ) (k : ℕ) :
    mortgageAfter rate pay L0 (k + 1)
      = MortgageCalculator.step rate pay (mortgageAfter rate pay L0 k) (k + 1) := by
  unfold mortgageAfter
  rw [List.range_succ, List.foldl_append, List.foldl_cons, List.foldl_nil]

/-- Closed form of the amortization loop when the opening balance is exactly N payments:
in exact rational arithmetic the clamp never cuts anything, the balance decreases by one
payment per iteration, and each row records the scheduled payment and the interest on the
balance the iteration started from. -/
theorem mortgage_closed_form (rate pay : ℚ) (N : ℕ) (hpay : 0 ≤ pay) :
    ∀ k : ℕ, k ≤ N →
      (mortgageAfter rate pay ((N : ℚ) * pay) k).loanLeft = ((N : ℚ) - (k : ℚ)) * pay ∧
      (mortgageAfter rate pay ((N : ℚ) * pay) k).rows.map MortgageCalculator.Row.amortization
        = List.replicate k pay ∧
      (mortgageAfter rate pay ((N : ℚ) * pay) k).rows.map MortgageCalculator.Row.interest
        = (List.range k).map (fun (i : ℕ) => (((N : ℚ) - (i : ℚ)) * pay) * (rate / 12)) ∧
      (mortgageAfter rate pay ((N : ℚ) * pay) k).rows.map MortgageCalculator.Row.loanLeft
        = (List.range k).map (fun (i : ℕ) => ((N : ℚ) - ((i : ℚ) + 1)) * pay) := by
  intro k
  induction k with
  | zero =>
    intro _
    refine ⟨?_, ?_, ?_, ?_⟩ <;> simp [mortgageAfter]
  | succ k ih =>
    intro hk
    obtain ⟨h1, h2, h3, h4⟩ := ih (Nat.le_of_succ_le hk)
    have hkN : ((k : ℚ) + 1) ≤ (N : ℚ) := by exact_mod_cast hk
    have hclamp :
        (if (mortgageAfter rate pay ((N : ℚ) * pay) k).loanLeft - pay ≤ 0 then (0 : ℚ)
          else (mortgageAfter rate pay ((N : ℚ) * pay) k).loanLeft - pay)
          = ((N : ℚ) - ((k : ℚ) + 1)) * pay := by
      rw [h1]
      have hkey : ((N : ℚ) - (k : ℚ)) * pay - pay = ((N : ℚ) - ((k : ℚ) + 1)) * pay := by ring
      rw [hkey]
      have hnn : 0 ≤ ((N : ℚ) - ((k : ℚ) + 1)) * pay :=
        mul_nonneg (by linarith) hpay
      split_ifs with hif
      · linarith
      · rfl
    refine ⟨?_, ?_, ?_, ?_⟩
    · rw [mortgageAfter_succ, step_loanLeft, hclamp]
      push_cast
      ring
    · rw [mortgageAfter_succ, step_rows, List.map_append, h2, List.replicate_succ']
      rfl
    · rw [mortgageAfter_succ, step_rows, List.map_append, h3, List.range_succ,
        List.map_append, List.map_singleton, List.map_singleton, h1]
    · rw [mortgageAfter_succ, step_rows, List.map_append, h4, List.range_succ,
        List.map_append, List.map_singleton, List.map_singleton, hclamp]

/-- Partial sums of non-negative summands form a monotone sequence. -/
theorem chain_le_scanl_add_of_nonneg :
    ∀ (l : List ℚ) (a : ℚ), (∀ x ∈ l, 0 ≤ x) →
      List.Chain' (fun u v => u ≤ v) (List.scanl (fun u v => u + v) a l) := by
  intro l
  induction l with
  | nil => intro a _; simp
  | cons x l ih =>
    intro a h
    rw [List.scanl_cons]
    simp only [List.singleton_append]
    rw [List.chain'_cons']
    constructor
    · intro y hy
      have hhead : (List.scanl (fun u v => u + v) (a + x) l).head? = some (a + x) := by
        cases l <;> rfl
      rw [hhead, Option.mem_some_iff] at hy
      subst hy
      have hx := h x (List.mem_cons_self x l)
      linarith
    · exact ih (a + x) (fun y hy => h y (List.mem_cons_of_mem x hy))

/-- C3: the mortgage simulation with property cost 2000000, down payment 15%, 15-year
term and 4% interest has loan amount 1700000, fixed monthly payment 1700000/180,
first-month interest 1700000 * (0.04/12), exactly 180 rows each showing the fixed
payment, a monotonically non-decreasing accumulated total interest, and a final
remaining balance of exactly 0. -/
theorem mortgage_default_scenario :
    MortgageCalculator.loanAmount 2000000 (15/100) = 1700000 ∧
    MortgageCalculator.amortizationPayment 2000000 (15/100) 15 = 1700000/180 ∧
    (MortgageCalculator.run 2000000 (15/100) 15 (4/100)).rows.length = 180 ∧
    ((MortgageCalculator.run 2000000 (15/100) 15 (4/100)).rows.head?.map
        MortgageCalculator.Row.interest) = some (1700000 * ((4/100)/12)) ∧
    ((MortgageCalculator.run 2000000 (15/100) 15 (4/100)).rows.map
        MortgageCalculator.Row.amortization) = List.replicate 180 (1700000/180) ∧
    List.Chain' (fun a b => a ≤ b)
      (List.scanl (fun a b => a + b) 0
        ((MortgageCalculator.run 2000000 (15/100) 15 (4/100)).rows.map
          MortgageCalculator.Row.interest)) ∧
    ((MortgageCalculator.run 2000000 (15/100) 15 (4/100)).rows.getLast?.map
        MortgageCalculator.Row.loanLeft) = some 0 ∧
    (MortgageCalculator.run 2000000 (15/100) 15 (4/100)).loanLeft = 0 := by
  have hLA : MortgageCalculator.loanAmount 2000000 (15/100) = 1700000 := by
    norm_num [MortgageCalculator.loanAmount]
  have hpay : MortgageCalculator.amortizationPayment 2000000 (15/100) 15 = 1700000/180 := by
    norm_num [MortgageCalculator.amortizationPayment, MortgageCalculator.loanAmount]
  have hN : (pythonInt ((15 : ℚ) * 12)).toNat = 180 := by
    have hpi : pythonInt ((15 : ℚ) * 12) = 180 := by norm_num [pythonInt]
    rw [hpi]
    rfl
  have hinit : MortgageCalculator.loanAmount 2000000 (15/100)
      = (180 : ℚ) * MortgageCalculator.amortizationPayment 2000000 (15/100) 15 := by
    rw [hLA, hpay]
    norm_num
  have hrun : MortgageCalculator.run 2000000 (15/100) 15 (4/100)
      = mortgageAfter (4/100) (MortgageCalculator.amortizationPayment 2000000 (15/100) 15)
          (((180 : ℕ) : ℚ) * MortgageCalculator.amortizationPayment 2000000 (15/100) 15) 180 := by
    unfold MortgageCalculator.run mortgageAfter
    rw [hN]
    rw [show ((180 : ℕ) : ℚ) = (180 : ℚ) by norm_num]
    rw [← hinit]
  have hpaynn : 0 ≤ MortgageCalculator.amortizationPayment 2000000 (15/100) 15 := by
    rw [hpay]
    norm_num
  obtain ⟨h1, h2, h3, h4⟩ :=
    mortgage_closed_form (4/100) (MortgageCalculator.amortizationPayment 2000000 (15/100) 15)
      180 hpaynn 180 (le_refl 180)
  refine ⟨hLA, hpay, ?_, ?_, ?_, ?_, ?_, ?_⟩
  · rw [hrun]
    have h2l := congrArg List.length h2
    rw [List.length_map, List.length_replicate] at h2l
    exact h2l
  · rw [hrun, ← List.head?_map, h3, List.head?_map, List.head?_range, hpay]
    norm_num
  · rw [hrun, h2, hpay]
  · rw [hrun, h3]
    apply chain_le_scanl_add_of_nonneg
    intro x hx
    obtain ⟨i, hi, rfl⟩ := List.mem_map.mp hx
    have hi' : i < 180 := List.mem_range.mp hi
    have hle : ((i : ℚ)) ≤ ((180 : ℕ) : ℚ) := by exact_mod_cast le_of_lt hi'
    apply mul_nonneg (mul_nonneg _ hpaynn)
    · norm_num
    · push_cast at hle ⊢
      linarith
  · rw [hrun, ← List.getLast?_map, h4, List.getLast?_map, List.getLast?_range]
    norm_num
  · rw [hrun, h1]
    norm_num

/-- Witness for C7: the single row of a one-payment, zero-interest mortgage. -/
theorem mortgage_clamp_invariant_witness :
    ((⟨1, 1200, 0, 1200, 0⟩ : MortgageCalculator.Row)
        ∈ (MortgageCalculator.run 1200 0 (1/12) 0).rows) ∧
    (0 ≤ MortgageCalculator.Row.loanLeft ⟨1, 1200, 0, 1200, 0⟩ ∧
      MortgageCalculator.Row.amortization ⟨1, 1200, 0, 1200, 0⟩
        = MortgageCalculator.amortizationPayment 1200 0 (1/12)) := by
  have hrows : (MortgageCalculator.run 1200 0 (1/12) 0).rows
      = [{ month := 1, amortization := 1200, interest := 0, totalPayment := 1200,
           loanLeft := 0 }] := by
    norm_num [MortgageCalculator.run, MortgageCalculator.step, pythonInt,
      MortgageCalculator.amortizationPayment, MortgageCalculator.loanAmount,
      List.range_succ, List.range_zero]
  refine ⟨?_, ?_⟩
  · rw [hrows]
    exact List.mem_singleton.mpr rfl
  · exact mortgage_clamp_invariant 1200 0 (1/12) 0 ⟨1, 1200, 0, 1200, 0⟩
      (by rw [hrows]; exact List.mem_singleton.mpr rfl)

/-- C8 counterexample: the compound-interest calculator's format_number displays 0 for
the input 0.5, whereas the ceiling of 0.5 is 1. -/
theorem format_number_ceiling_counterexample :
    CompoundInterestCalculator.format_number (1/2) = 0 ∧ ⌈(1/2 : ℚ)⌉ = 1 := by
  have hceil : ⌈(1/2 : ℚ)⌉ = 1 := by
    rw [Int.ceil_eq_iff]
    constructor <;> norm_num
  have hfloor : ⌊(1/2 : ℚ)⌋ = 0 := by
    rw [Int.floor_eq_iff]
    constructor <;> norm_num
  refine ⟨?_, hceil⟩
  show ⌈((pythonInt (1/2) : ℤ) : ℚ)⌉ = 0
  have hpi : pythonInt (1/2) = 0 := by
    show (if (0 : ℚ) ≤ 1/2 then ⌊(1/2 : ℚ)⌋ else ⌈(1/2 : ℚ)⌉) = 0
    rw [if_pos (by norm_num), hfloor]
  rw [hpi]
  exact Int.ceil_intCast 0

/-- C8 (amended): the mortgage calculator's format_number displays the ceiling of its
input, while the compound-interest and ISK calculators' format_number versions display
the truncation toward zero (Python int() is applied first, making the outer ceiling a
no-op), which agrees with the ceiling only on integers and negative inputs. -/
theorem format_number_semantics :
    (∀ x : ℚ, MortgageCalculator.format_number x = ⌈x⌉) ∧
    (∀ x : ℚ, CompoundInterestCalculator.format_number x = pythonInt x) ∧
    (∀ x : ℚ, IskContinuousCompounding.format_number x = pythonInt x) := by
  refine ⟨fun x => rfl, fun x => ?_, fun x => ?_⟩
  · show ⌈((pythonInt x : ℤ) : ℚ)⌉ = pythonInt x
    exact Int.ceil_intCast _
  · show ⌈((pythonInt x : ℤ) : ℚ)⌉ = pythonInt x
    exact Int.ceil_intCast _

/-- Resolving the attribute average_rate_of_return_per_year on FinanceFormulas fails:
the class defines no method with that name. -/
theorem getattr_average_rate_missing :
    FinanceFormulas.getattr "average_rate_of_return_per_year"
      = Except.error
          "AttributeError: FinanceFormulas object has no attribute average_rate_of_return_per_year" := by
  rfl

/-- Every month iteration adds the monthly deposit to the savings total. -/
theorem monthStep_totalSaved (d r : ℚ) (f : Bool) (s : CompoundInterestCalculator.State)
    (m : ℕ) :
    (CompoundInterestCalculator.monthStep d r f s m).totalSaved = s.totalSaved + d := by
  simp only [CompoundInterestCalculator.monthStep]
  split
  · rfl
  · rfl

/-- A month iteration appends one row exactly at year boundaries, and the appended row
records the updated savings total. -/
theorem monthStep_rows_totSaved (d r : ℚ) (f : Bool) (s : CompoundInterestCalculator.State)
    (m : ℕ) :
    (CompoundInterestCalculator.monthStep d r f s m).rows.map
        CompoundInterestCalculator.Row.totSaved
      = (if m % 12 = 11 then
          (s.rows.map CompoundInterestCalculator.Row.totSaved) ++ [s.totalSaved + d]
        else s.rows.map CompoundInterestCalculator.Row.totSaved) := by
  simp only [CompoundInterestCalculator.monthStep]
  split
  · simp
  · simp

/-- Savings-total invariant of the compound-interest simulation: after m months the
savings total is the start capital plus m deposits, and the rows printed so far show the
savings totals at the successive year ends. -/
theorem ci_fold_totSaved (startCapital monthlyDeposit r : ℚ) (flatRateTax : Bool) :
    ∀ m : ℕ,
      ((List.range m).foldl
          (CompoundInterestCalculator.monthStep monthlyDeposit r flatRateTax)
          { totalCapital := startCapital, totalSaved := startCapital, totalGained := 0,
            yearlyGained := 0, quaterValues := [], yearCounter := 1,
            rows := [] }).totalSaved
        = startCapital + monthlyDeposit * (m : ℚ) ∧
      ((List.range m).foldl
          (CompoundInterestCalculator.monthStep monthlyDeposit r flatRateTax)
          { totalCapital := startCapital, totalSaved := startCapital, totalGained := 0,
            yearlyGained := 0, quaterValues := [], yearCounter := 1,
            rows := [] }).rows.map CompoundInterestCalculator.Row.totSaved
        = (List.range (m / 12)).map
            (fun (k : ℕ) => startCapital + monthlyDeposit * (((12 * (k + 1) : ℕ)) : ℚ)) := by
  intro m
  induction m with
  | zero => constructor <;> simp
  | succ m ih =>
    obtain ⟨h1, h2⟩ := ih
    rw [List.range_succ, List.foldl_append, List.foldl_cons, List.foldl_nil]
    constructor
    · rw [monthStep_totalSaved, h1]
      push_cast
      ring
    · rw [monthStep_rows_totSaved, h1, h2]
      by_cases hm : m % 12 = 11
      · rw [if_pos hm]
        have h12 : (m + 1) / 12 = m / 12 + 1 := by omega
        have hmm : (12 * (m / 12 + 1) : ℕ) = m + 1 := by omega
        rw [h12, List.range_succ, List.map_append, List.map_singleton]
        congr 1
        simp only [List.cons.injEq, and_true]
        rw [hmm]
        push_cast
        ring
      · rw [if_neg hm]
        have h12 : (m + 1) / 12 = m / 12 := by omega
        rw [h12]

/-- C1: running the compound-interest calculator with every input defaulted fails with an
attribute error before printing any row (the method average_rate_of_return_per_year does
not exist); the simulation loop itself, had the monthly rate been available, would print
exactly 20 rows whose savings totals are 250000 + 60000 k for k = 1..20, for every
monthly rate. -/
theorem compound_interest_default_run :
    (∀ call : String → ℚ → ℚ → ℚ,
        CompoundInterestCalculator.main call 250000 5000 (8/100) 20 true
          = Except.error
              "AttributeError: FinanceFormulas object has no attribute average_rate_of_return_per_year") ∧
    (∀ r : ℚ,
        (CompoundInterestCalculator.simulate 250000 5000 r 20 true).rows.length = 20 ∧
        (CompoundInterestCalculator.simulate 250000 5000 r 20 true).rows.map
            CompoundInterestCalculator.Row.totSaved
          = (List.range 20).map (fun (k : ℕ) => (250000 : ℚ) + 60000 * ((k : ℚ) + 1))) := by
  constructor
  · intro call
    simp only [CompoundInterestCalculator.main, getattr_average_rate_missing]
  · intro r
    obtain ⟨h1, h2⟩ := ci_fold_totSaved 250000 5000 r true (20 * 12)
    have hdiv : (20 * 12) / 12 = 20 := rfl
    rw [hdiv] at h2
    have hrows : (CompoundInterestCalculator.simulate 250000 5000 r 20 true).rows.map
        CompoundInterestCalculator.Row.totSaved
        = (List.range 20).map
            (fun (k : ℕ) => (250000 : ℚ) + 5000 * (((12 * (k + 1) : ℕ)) : ℚ)) := h2
    constructor
    · have hlen := congrArg List.length hrows
      rw [List.length_map, List.length_map, List.length_range] at hlen
      exact hlen
    · rw [hrows]
      apply List.map_congr_left
      intro k _
      push_cast
      ring

/-- C10: the FinanceFormulas class defines no method average_rate_of_return_per_year, so
every run of the compound-interest calculator and of the average-rate-of-return
calculator that reaches this call fails with an attribute error, whatever the inputs and
whatever a successful resolution would have computed, producing no table row or result. -/
theorem average_rate_of_return_per_year_missing :
    FinanceFormulas.methodNames.contains "average_rate_of_return_per_year" = false ∧
    (∀ (call : String → ℚ → ℚ → ℚ) (startCapital monthlyDeposit rateOfReturn : ℚ)
        (yearsToSave : ℕ) (flatRateTax : Bool),
        CompoundInterestCalculator.main call startCapital monthlyDeposit rateOfReturn
            yearsToSave flatRateTax
          = Except.error
              "AttributeError: FinanceFormulas object has no attribute average_rate_of_return_per_year") ∧
    (∀ (call : String → ℚ → ℚ → ℚ) (totalRateOfReturn years : ℚ),
        AverageRateOfReturnCalculator.main call totalRateOfReturn years
          = Except.error
              "AttributeError: FinanceFormulas object has no attribute average_rate_of_return_per_year") := by
  refine ⟨rfl, ?_, ?_⟩
  · intro call startCapital monthlyDeposit rateOfReturn yearsToSave flatRateTax
    simp only [CompoundInterestCalculator.main, getattr_average_rate_missing]
  · intro call totalRateOfReturn years
    simp only [AverageRateOfReturnCalculator.main, getattr_average_rate_missing]
